import Mathlib

/-!
Shallow embedding of `main.go` of clubhouse-slack-notifier.

The job fetches users, workflows, projects and stories, narrows them with a
chain of list filters and sends one Slack message per allowlisted user with
stale stories.  This file embeds the filters, the notifier and the
orchestrator (`run`) as Lean functions and proves properties of them.

Modelling conventions

* Go `string` is `String`, Go `int` (64 bit) is `Int`; identifiers are only
  ever compared for equality.
* `time.Duration` is a signed 64-bit count of nanoseconds: arithmetic on it
  wraps (`wrapInt64`), and `Time.Sub` saturates (`clampInt64`).
* An instant (`time.Time`) is an `Int`, the nanoseconds since a fixed epoch.
  `time.Parse(time.RFC3339, _)`, `time.Now()` and `Duration.String()` belong
  to the Go runtime; they are the fields of `Sys`.
* Every HTTP fetch is a given result (`Except String _`), the Slack
  `PostMessage` call is a function from channel and text to an optional error.
* `for ... range` loops that `append` are left folds over an accumulator;
  loops that `break` or `return` are structural recursions.
-/

set_option autoImplicit false
set_option maxRecDepth 100000

namespace ClubhouseNotifier

/-! ## Data model (`main.go` lines 360-415) -/

/-- Go `UserProfile`. -/
structure UserProfile where
  Email : String
  deriving DecidableEq

/-- Go `User` (a Clubhouse member). -/
structure User where
  ID : String
  Profile : UserProfile
  deriving DecidableEq

/-- The fields of `slack.User` that the program reads: `ID` and `Profile.Email`. -/
structure SlackUser where
  ID : String
  Profile : UserProfile
  deriving DecidableEq

/-- Go `Project`. -/
structure Project where
  ID : Int
  Name : String
  TeamID : Int
  deriving DecidableEq

/-- Go `Story`. -/
structure Story where
  ID : Int
  Name : String
  RequesterID : String
  WorkflowStateID : Int
  MovedAt : String
  deriving DecidableEq

/-- Go `WorkflowState`. -/
structure WorkflowState where
  ID : Int
  Name : String
  deriving DecidableEq

/-- Go `Workflow`. -/
structure Workflow where
  ID : Int
  States : List WorkflowState
  TeamID : Int
  deriving DecidableEq

/-! ## Constants (`main.go` lines 16-31) -/

/-- The package variable `whitelistedEmails`. -/
def whitelistedEmails : List String :=
  ["stephen.meriwether@policygenius.com",
   "adam.chadroff@policygenius.com",
   "jason.fromm@policygenius.com"]

/-- The constant `teamID`. -/
def teamID : Int := 5285

/-- The constant `nHoursAgo`. -/
def nHoursAgo : Int := 18

/-! ## Time -/

/-- Two's-complement wrap of an integer into the `int64` range. -/
def wrapInt64 (x : Int) : Int := (x + 2 ^ 63) % 2 ^ 64 - 2 ^ 63

/-- Saturation into the `int64` range, as `Time.Sub` does for a `Duration`. -/
def clampInt64 (x : Int) : Int :=
  if x < -(2 ^ 63) then -(2 ^ 63) else if 2 ^ 63 - 1 < x then 2 ^ 63 - 1 else x

/-- The constant `time.Hour`, in nanoseconds. -/
def Hour : Int := 3600000000000

/-- What the Go runtime supplies: the clock, the RFC3339 parser (`none` when
`time.Parse` returns an error) and `Duration.String`. -/
structure Sys where
  now : Int
  parseRFC3339 : String → Option Int
  durationString : Int → String

/-- The method `Story.MovedInLastNHours` (lines 378-386): `false` when `MovedAt`
does not parse, otherwise whether the parsed instant is before
`time.Now().Add(time.Duration(-n) * time.Hour)`. -/
def Story.MovedInLastNHours (sys : Sys) (s : Story) (n : Int) : Bool :=
  match sys.parseRFC3339 s.MovedAt with
  | none => false
  | some parsedMovedAt =>
    let nHoursAgo := sys.now + wrapInt64 (wrapInt64 (-n) * Hour)
    decide (parsedMovedAt < nHoursAgo)

/-- The method `Story.ago` (lines 388-395): `-1` when `MovedAt` does not parse,
otherwise `time.Now().Sub(parsedMovedAt)`. -/
def Story.ago (sys : Sys) (s : Story) : Int :=
  match sys.parseRFC3339 s.MovedAt with
  | none => -1
  | some parsedMovedAt => clampInt64 (sys.now - parsedMovedAt)

/-- The method `Story.url` (lines 374-376). -/
def Story.url (s : Story) : String :=
  "https://app.clubhouse.io/policygenius/story/" ++ toString s.ID

/-! ## Filters (`main.go` lines 198-291) -/

/-- The inner loop shared by the three join filters: scan `ys`; at the first
element satisfying `p` append `x` to the accumulator and `break`. -/
def appendOnFirstMatch {α β : Type} (acc : List α) (x : α) (p : β → Bool) : List β → List α
  | [] => acc
  | y :: ys => if p y then acc ++ [x] else appendOnFirstMatch acc x p ys

/-- The function `slackUsersForEmails` (lines 198-210). -/
def slackUsersForEmails (users : List SlackUser) (whitelistedEmails : List String) :
    List SlackUser :=
  users.foldl
    (fun whitelistedUsers user =>
      appendOnFirstMatch whitelistedUsers user
        (fun email => decide (user.Profile.Email = email)) whitelistedEmails)
    []

/-- The function `clubhouseUsersForEmails` (lines 212-224). -/
def clubhouseUsersForEmails (users : List User) (whitelistedEmails : List String) :
    List User :=
  users.foldl
    (fun whitelistedUsers user =>
      appendOnFirstMatch whitelistedUsers user
        (fun email => decide (user.Profile.Email = email)) whitelistedEmails)
    []

/-- The inner loop of `workflowStateForTeamWithName` (lines 232-236): the first
state with the given name, if any. -/
def firstStateNamed (workflowStateName : String) : List WorkflowState → Option WorkflowState
  | [] => none
  | state :: states =>
    if state.Name = workflowStateName then some state
    else firstStateNamed workflowStateName states

/-- The function `workflowStateForTeamWithName` (lines 226-240); `none` is the
`nil` pointer.  A workflow of another team is skipped (`continue`); a workflow
of the team whose states do not hold the name falls through to the next
workflow. -/
def workflowStateForTeamWithName (workflows : List Workflow) (teamID : Int)
    (workflowStateName : String) : Option WorkflowState :=
  match workflows with
  | [] => none
  | workflow :: rest =>
    if workflow.TeamID ≠ teamID then
      workflowStateForTeamWithName rest teamID workflowStateName
    else
      match firstStateNamed workflowStateName workflow.States with
      | some state => some state
      | none => workflowStateForTeamWithName rest teamID workflowStateName

/-- The function `projectsForTeam` (lines 242-253). -/
def projectsForTeam (projects : List Project) (teamID : Int) : List Project :=
  projects.foldl
    (fun projectsForTeam project =>
      if project.TeamID ≠ teamID then projectsForTeam else projectsForTeam ++ [project])
    []

/-- The function `storiesInWorkflowState` (lines 255-266). -/
def storiesInWorkflowState (stories : List Story) (workflowState : WorkflowState) :
    List Story :=
  stories.foldl
    (fun storiesInWorkflowState story =>
      if story.WorkflowStateID ≠ workflowState.ID then storiesInWorkflowState
      else storiesInWorkflowState ++ [story])
    []

/-- The function `storiesForRequesters` (lines 268-280). -/
def storiesForRequesters (stories : List Story) (whitelistedUsers : List User) : List Story :=
  stories.foldl
    (fun whitelistedStories story =>
      appendOnFirstMatch whitelistedStories story
        (fun user => decide (user.ID = story.RequesterID)) whitelistedUsers)
    []

/-- The function `storiesOlderThanNHoursAgo` (lines 282-291). -/
def storiesOlderThanNHoursAgo (sys : Sys) (storiesInAcceptance : List Story) (nHoursAgo : Int) :
    List Story :=
  storiesInAcceptance.foldl
    (fun oldStories story =>
      if story.MovedInLastNHours sys nHoursAgo then oldStories ++ [story] else oldStories)
    []

/-! ## Notifier (`main.go` lines 302-358) -/

/-- The lookup loop of `notifySlackOfStaleStories` (lines 305-311): the first
Clubhouse user with the given email, or the zero value of `User` when the loop
ends without a match. -/
def clubhouseUserForEmail (email : String) : List User → User
  | [] => ⟨"", ⟨""⟩⟩
  | user :: users =>
    if user.Profile.Email = email then user else clubhouseUserForEmail email users

/-- The collection loop (lines 313-318): the stories requested by `clubhouseUser`. -/
def storiesForSlackUser (stories : List Story) (clubhouseUser : User) : List Story :=
  stories.foldl
    (fun acc story => if story.RequesterID = clubhouseUser.ID then acc ++ [story] else acc)
    []

/-- The message built on lines 324-333: the `Sprintf` of the summary line, then
one `Sprintf` per story appended with `+=`. -/
def staleStoriesMessage (sys : Sys) (storiesForSlackUser : List Story) : String :=
  storiesForSlackUser.foldl
    (fun message story =>
      message ++ ("* <" ++ story.url ++ "|" ++ story.Name ++ "> was moved "
        ++ sys.durationString (story.ago sys) ++ " ago\n"))
    ("You have " ++ toString storiesForSlackUser.length
      ++ " story(s) in acceptance for more than " ++ toString nHoursAgo ++ " hours\n")

/-- The state of the loop of `notifySlackOfStaleStories`: the slice `errors`
(the text of each error) and the trace of `PostMessage` calls made so far, each
recorded as (channel, text). -/
structure NotifyState where
  errors : List String
  sent : List (String × String)
  deriving DecidableEq

/-- One iteration of the loop over `slackUsers` (lines 304-346). -/
def notifyStep (sys : Sys) (post : String → String → Option String) (stories : List Story)
    (clubhouseUsers : List User) (st : NotifyState) (slackUser : SlackUser) : NotifyState :=
  let clubhouseUser := clubhouseUserForEmail slackUser.Profile.Email clubhouseUsers
  let storiesForSlackUser := storiesForSlackUser stories clubhouseUser
  if storiesForSlackUser.length = 0 then st
  else
    let message := staleStoriesMessage sys storiesForSlackUser
    match post slackUser.ID message with
    | some err => ⟨st.errors ++ [err], st.sent ++ [(slackUser.ID, message)]⟩
    | none => ⟨st.errors, st.sent ++ [(slackUser.ID, message)]⟩

/-- The loop of `notifySlackOfStaleStories` over `slackUsers`. -/
def notifyLoop (sys : Sys) (post : String → String → Option String) (stories : List Story)
    (clubhouseUsers : List User) (slackUsers : List SlackUser) : NotifyState :=
  slackUsers.foldl (notifyStep sys post stories clubhouseUsers) ⟨[], []⟩

/-- The function `notifySlackOfStaleStories` (lines 302-358): the returned error
(`none` is `nil`, `some msg` an error whose text is `msg`) together with the
trace of `PostMessage` calls. -/
def notifySlackOfStaleStories (sys : Sys) (post : String → String → Option String)
    (stories : List Story) (clubhouseUsers : List User) (slackUsers : List SlackUser) :
    Option String × List (String × String) :=
  let st := notifyLoop sys post stories clubhouseUsers slackUsers
  if st.errors.length = 0 then (none, st.sent)
  else (some (st.errors.foldl (fun errorMsg err => errorMsg ++ err) ""), st.sent)

/-! ## Orchestrator (`main.go` lines 42-112) -/

/-- The value a `panic` of `run` carries: an `error` (`panic(err)`) or a string
(`panic("...")`). -/
inductive Panic where
  | error (msg : String)
  | text (s : String)
  deriving DecidableEq

/-- The outside world of one run: the result of each fetch and the Slack send. -/
structure World where
  fetchSlackUsers : Except String (List SlackUser)
  fetchClubhouseUsers : Except String (List User)
  fetchWorkflows : Except String (List Workflow)
  fetchProjects : Except String (List Project)
  fetchStories : Int → Except String (List Story)
  post : String → String → Option String

/-- The story-fetch loop of `run` (lines 84-92): one fetch per project, in
order, appended to `stories`; the first failing fetch panics. -/
def fetchAllStories (fetchStories : Int → Except String (List Story)) (stories : List Story) :
    List Project → Except Panic (List Story)
  | [] => .ok stories
  | project :: rest =>
    match fetchStories project.ID with
    | .error err => .error (Panic.error err)
    | .ok fetchedStories => fetchAllStories fetchStories (stories ++ fetchedStories) rest

/-- The function `run` up to its last call (lines 42-106): the three arguments
it passes to `notifySlackOfStaleStories`, or the panic that ends it before. -/
def runNotifyArgs (sys : Sys) (w : World) :
    Except Panic (List Story × List User × List SlackUser) :=
  match w.fetchSlackUsers with
  | .error err => .error (Panic.error err)
  | .ok slackUsers =>
    let whitlistedSlackUsers := slackUsersForEmails slackUsers whitelistedEmails
    match w.fetchClubhouseUsers with
    | .error err => .error (Panic.error err)
    | .ok clubhouseUsers =>
      let whitelistedClubhouseUsers := clubhouseUsersForEmails clubhouseUsers whitelistedEmails
      match w.fetchWorkflows with
      | .error err => .error (Panic.error err)
      | .ok workflows =>
        match workflowStateForTeamWithName workflows teamID "In Acceptance" with
        | none => .error (Panic.text "Nil acceptanceWorkflowState")
        | some acceptanceWorkflowState =>
          match w.fetchProjects with
          | .error err => .error (Panic.error err)
          | .ok projects =>
            match fetchAllStories w.fetchStories [] (projectsForTeam projects teamID) with
            | .error p => .error p
            | .ok stories =>
              let storiesInAcceptance := storiesInWorkflowState stories acceptanceWorkflowState
              let storiesForWhitelistedUsers :=
                storiesForRequesters storiesInAcceptance whitelistedClubhouseUsers
              let oldStoriesInAcceptance :=
                storiesOlderThanNHoursAgo sys storiesForWhitelistedUsers nHoursAgo
              .ok (oldStoriesInAcceptance, whitelistedClubhouseUsers, whitlistedSlackUsers)

/-- The function `run` (lines 42-112): `.ok` with the trace of `PostMessage`
calls when it returns, `.error` with the panic value otherwise. -/
def run (sys : Sys) (w : World) : Except Panic (List (String × String)) :=
  match runNotifyArgs sys w with
  | .error p => .error p
  | .ok (oldStoriesInAcceptance, whitelistedClubhouseUsers, whitlistedSlackUsers) =>
    match notifySlackOfStaleStories sys w.post oldStoriesInAcceptance
        whitelistedClubhouseUsers whitlistedSlackUsers with
    | (some err, _) => .error (Panic.error err)
    | (none, sent) => .ok sent

/-! ## Specification-side definitions and example inputs -/

/-- Staleness in the words of the specification: `MovedAt` parses to an
instant strictly before now minus `n` hours (exact integer arithmetic). -/
def StaleAt (sys : Sys) (n : Int) (s : Story) : Prop :=
  ∃ t, sys.parseRFC3339 s.MovedAt = some t ∧ t < sys.now - n * Hour

instance staleAtDecidable (sys : Sys) (n : Int) (s : Story) : Decidable (StaleAt sys n s) :=
  match h : sys.parseRFC3339 s.MovedAt with
  | none => isFalse (fun ⟨_, ht, _⟩ => by rw [h] at ht; cases ht)
  | some t =>
    if hlt : t < sys.now - n * Hour then isTrue ⟨t, h, hlt⟩
    else isFalse (fun ⟨u, hu, hul⟩ => by
      rw [h] at hu
      cases hu
      exact hlt hul)

/-- The workflow-state lookup as the specification words it: the first state
with the name within the first workflow of the team, "not found" when there is
no such workflow or that workflow has no such state. -/
def firstWorkflowStateSpec (workflows : List Workflow) (teamID : Int)
    (workflowStateName : String) : Option WorkflowState :=
  match workflows.find? (fun w => decide (w.TeamID = teamID)) with
  | none => none
  | some w => w.States.find? (fun s => decide (s.Name = workflowStateName))

/-- A clock at instant `0` whose parser reads every timestamp as one hour ago. -/
def sysOneHourAgo : Sys := ⟨0, fun _ => some (-Hour), fun _ => "1h0m0s"⟩

/-- A story used in the examples. -/
def exampleStory : Story := ⟨1, "Ship it", "u-1", 500, "2019-01-01T00:00:00Z"⟩

/-- Two workflows of team 5285; only the second has an "In Acceptance" state. -/
def twoWorkflows : List Workflow :=
  [⟨1, [⟨10, "Ready"⟩], 5285⟩, ⟨2, [⟨20, "Ready"⟩, ⟨21, "In Acceptance"⟩], 5285⟩]

/-- A clock at instant `0` whose parser reads every timestamp as nineteen hours ago. -/
def sysNineteenHoursAgo : Sys := ⟨0, fun _ => some (-(19 * Hour)), fun _ => "19h0m0s"⟩

/-- The stories `run` hands to the notifier, in the words of the specification:
the stories fetched for the projects of team 5285, concatenated in project
order and restricted to those in the resolved state, requested by a fetched
user whose email is allowlisted, and moved strictly more than 18 hours ago. -/
def staleStoriesSpec (sys : Sys) (clubhouseUsers : List User) (projects : List Project)
    (storiesOf : Int → List Story) (state : WorkflowState) : List Story :=
  ((projects.filter (fun p => decide (p.TeamID = 5285))).flatMap
      (fun p => storiesOf p.ID)).filter
    (fun s => decide (s.WorkflowStateID = state.ID
      ∧ (∃ u ∈ clubhouseUsers, u.Profile.Email ∈ whitelistedEmails ∧ u.ID = s.RequesterID)
      ∧ StaleAt sys 18 s))

/-- Example clock: now is 24 hours after the epoch, the one timestamp that
parses is 20 hours before now. -/
def exampleSys : Sys :=
  ⟨24 * Hour,
   fun s => if s = "2019-03-01T04:00:00Z" then some (4 * Hour) else none,
   fun d => if d = 20 * Hour then "20h0m0s" else "-1ns"⟩

/-- Example Slack users: two allowlisted, one not. -/
def exampleSlackUsers : List SlackUser :=
  [⟨"U1", ⟨"stephen.meriwether@policygenius.com"⟩⟩,
   ⟨"U2", ⟨"adam.chadroff@policygenius.com"⟩⟩,
   ⟨"U9", ⟨"someone.else@policygenius.com"⟩⟩]

/-- Example Clubhouse users: one allowlisted, one not. -/
def exampleClubhouseUsers : List User :=
  [⟨"c-1", ⟨"stephen.meriwether@policygenius.com"⟩⟩,
   ⟨"c-9", ⟨"someone.else@policygenius.com"⟩⟩]

/-- Example projects: one of team 5285, one of another team. -/
def exampleProjects : List Project := [⟨7, "Web", 5285⟩, ⟨8, "Ops", 1⟩]

/-- Example stories of project 7: three in state 21 moved 20 hours ago, two of
them requested by the allowlisted user. -/
def exampleStoriesOf (projectID : Int) : List Story :=
  if projectID = 7 then
    [⟨101, "Quote page", "c-1", 21, "2019-03-01T04:00:00Z"⟩,
     ⟨102, "Login", "c-1", 21, "2019-03-01T04:00:00Z"⟩,
     ⟨103, "Billing", "c-9", 21, "2019-03-01T04:00:00Z"⟩]
  else []

/-- Example world: every fetch succeeds and every send succeeds. -/
def exampleWorld : World :=
  ⟨.ok exampleSlackUsers, .ok exampleClubhouseUsers, .ok twoWorkflows, .ok exampleProjects,
   fun projectID => .ok (exampleStoriesOf projectID), fun _ _ => none⟩

/-- The stories the notifier attributes to a Slack user: those requested by the
user its email lookup yields. -/
def attributedStories (stories : List Story) (clubhouseUsers : List User)
    (slackUser : SlackUser) : List Story :=
  stories.filter (fun s =>
    decide (s.RequesterID = (clubhouseUserForEmail slackUser.Profile.Email clubhouseUsers).ID))

/-- The send one loop iteration makes, if any: none when no story is attributed
to the Slack user, otherwise the message for the attributed stories, addressed
to the user's ID. -/
def notifyAttempt (sys : Sys) (stories : List Story) (clubhouseUsers : List User)
    (slackUser : SlackUser) : Option (String × String) :=
  if attributedStories stories clubhouseUsers slackUser = [] then none
  else some (slackUser.ID,
    staleStoriesMessage sys (attributedStories stories clubhouseUsers slackUser))

/-- The bullet line of one story, as the specification words it. -/
def bulletLine (sys : Sys) (s : Story) : String :=
  "* <https://app.clubhouse.io/policygenius/story/" ++ toString s.ID ++ "|" ++ s.Name
    ++ "> was moved " ++ sys.durationString (s.ago sys) ++ " ago\n"

/-- The summary line for `k` stories, as the specification words it. -/
def summaryLine (k : Nat) : String :=
  "You have " ++ toString k ++ " story(s) in acceptance for more than 18 hours\n"

/-- The two stale stories of the example, as `run` hands them to the notifier. -/
def exampleStaleStories : List Story :=
  [⟨101, "Quote page", "c-1", 21, "2019-03-01T04:00:00Z"⟩,
   ⟨102, "Login", "c-1", 21, "2019-03-01T04:00:00Z"⟩]

/-- A story whose requester ID is the empty string. -/
def orphanStory : Story := ⟨104, "Orphan", "", 21, "2019-03-01T04:00:00Z"⟩

/-- A send that fails for the channels "U1" and "U3". -/
def failingPost (channel : String) (_text : String) : Option String :=
  if channel = "U1" then some "U1 unreachable;"
  else if channel = "U3" then some "U3 unreachable;"
  else none

/-- Three Slack users for the delivery-failure example. -/
def threeSlackUsers : List SlackUser :=
  [⟨"U1", ⟨"a@example.com"⟩⟩, ⟨"U2", ⟨"b@example.com"⟩⟩, ⟨"U3", ⟨"c@example.com"⟩⟩]

/-- Their Clubhouse accounts. -/
def threeClubhouseUsers : List User :=
  [⟨"c-1", ⟨"a@example.com"⟩⟩, ⟨"c-2", ⟨"b@example.com"⟩⟩, ⟨"c-3", ⟨"c@example.com"⟩⟩]

/-- One stale story for each of them. -/
def threeStories : List Story :=
  [⟨201, "One", "c-1", 21, "2019-03-01T04:00:00Z"⟩,
   ⟨202, "Two", "c-2", 21, "2019-03-01T04:00:00Z"⟩,
   ⟨203, "Three", "c-3", 21, "2019-03-01T04:00:00Z"⟩]

/-- A world whose workflows of team 5285 have no "In Acceptance" state. -/
def worldWithoutAcceptance : World :=
  ⟨.ok exampleSlackUsers, .ok exampleClubhouseUsers, .ok [⟨1, [⟨10, "Ready"⟩], 5285⟩],
   .ok exampleProjects, fun projectID => .ok (exampleStoriesOf projectID), fun _ _ => none⟩

/-! ## Loop lemmas -/

/-- The inner loop appends `x` exactly when some element of `ys` satisfies `p`. -/
theorem appendOnFirstMatch_eq {α β : Type} (acc : List α) (x : α) (p : β → Bool)
    (ys : List β) :
    appendOnFirstMatch acc x p ys = if ys.any p = true then acc ++ [x] else acc := by
  induction ys with
  | nil => simp [appendOnFirstMatch]
  | cons y ys ih =>
    by_cases hy : p y = true
    · simp [appendOnFirstMatch, hy]
    · simp [appendOnFirstMatch, hy, ih]

/-- An appending loop with a guard is the accumulator followed by a filter. -/
theorem foldl_guard_append {α : Type} (q : α → Bool) (l acc : List α) :
    l.foldl (fun acc x => if q x = true then acc ++ [x] else acc) acc = acc ++ l.filter q := by
  induction l generalizing acc with
  | nil => simp
  | cons x xs ih =>
    by_cases hx : q x = true
    · simp [List.foldl_cons, hx, ih, List.filter_cons]
    · simp [List.foldl_cons, hx, ih, List.filter_cons]

/-- An appending loop whose body is the first-match inner loop is a filter. -/
theorem foldl_firstMatch {α β : Type} (p : α → β → Bool) (ys : List β) (l acc : List α) :
    l.foldl (fun acc x => appendOnFirstMatch acc x (p x) ys) acc
      = acc ++ l.filter (fun x => ys.any (p x)) := by
  have h : (fun (acc : List α) (x : α) => appendOnFirstMatch acc x (p x) ys)
      = fun acc x => if (fun x => ys.any (p x)) x = true then acc ++ [x] else acc := by
    funext acc x
    exact appendOnFirstMatch_eq acc x (p x) ys
  rw [h]
  exact foldl_guard_append _ l acc

theorem slackUsersForEmails_eq_filter (users : List SlackUser) (emails : List String) :
    slackUsersForEmails users emails
      = users.filter (fun u => decide (u.Profile.Email ∈ emails)) := by
  unfold slackUsersForEmails
  rw [foldl_firstMatch (fun (u : SlackUser) email => decide (u.Profile.Email = email))]
  simp only [List.nil_append]
  apply List.filter_congr
  intro u _
  rw [Bool.eq_iff_iff]
  simp [List.any_eq_true]

theorem clubhouseUsersForEmails_eq_filter (users : List User) (emails : List String) :
    clubhouseUsersForEmails users emails
      = users.filter (fun u => decide (u.Profile.Email ∈ emails)) := by
  unfold clubhouseUsersForEmails
  rw [foldl_firstMatch (fun (u : User) email => decide (u.Profile.Email = email))]
  simp only [List.nil_append]
  apply List.filter_congr
  intro u _
  rw [Bool.eq_iff_iff]
  simp [List.any_eq_true]

theorem projectsForTeam_eq_filter (projects : List Project) (t : Int) :
    projectsForTeam projects t = projects.filter (fun p => decide (p.TeamID = t)) := by
  unfold projectsForTeam
  have h : (fun (acc : List Project) (project : Project) =>
      if project.TeamID ≠ t then acc else acc ++ [project])
      = fun acc x => if (fun p : Project => decide (p.TeamID = t)) x = true
          then acc ++ [x] else acc := by
    funext acc x
    by_cases hx : x.TeamID = t <;> simp [hx]
  rw [h, foldl_guard_append]
  simp

theorem storiesInWorkflowState_eq_filter (stories : List Story) (ws : WorkflowState) :
    storiesInWorkflowState stories ws
      = stories.filter (fun s => decide (s.WorkflowStateID = ws.ID)) := by
  unfold storiesInWorkflowState
  have h : (fun (acc : List Story) (story : Story) =>
      if story.WorkflowStateID ≠ ws.ID then acc else acc ++ [story])
      = fun acc x => if (fun s : Story => decide (s.WorkflowStateID = ws.ID)) x = true
          then acc ++ [x] else acc := by
    funext acc x
    by_cases hx : x.WorkflowStateID = ws.ID <;> simp [hx]
  rw [h, foldl_guard_append]
  simp

theorem storiesForRequesters_eq_filter (stories : List Story) (users : List User) :
    storiesForRequesters stories users
      = stories.filter (fun s => decide (∃ u ∈ users, u.ID = s.RequesterID)) := by
  unfold storiesForRequesters
  rw [foldl_firstMatch (fun (s : Story) (u : User) => decide (u.ID = s.RequesterID))]
  simp only [List.nil_append]
  apply List.filter_congr
  intro s _
  rw [Bool.eq_iff_iff]
  simp [List.any_eq_true]

theorem storiesOlderThanNHoursAgo_eq_filter (sys : Sys) (stories : List Story) (n : Int) :
    storiesOlderThanNHoursAgo sys stories n
      = stories.filter (fun s => s.MovedInLastNHours sys n) := by
  unfold storiesOlderThanNHoursAgo
  rw [foldl_guard_append]
  simp

theorem storiesForSlackUser_eq_filter (stories : List Story) (cu : User) :
    storiesForSlackUser stories cu
      = stories.filter (fun s => decide (s.RequesterID = cu.ID)) := by
  unfold storiesForSlackUser
  have h : (fun (acc : List Story) (story : Story) =>
      if story.RequesterID = cu.ID then acc ++ [story] else acc)
      = fun acc x => if (fun s : Story => decide (s.RequesterID = cu.ID)) x = true
          then acc ++ [x] else acc := by
    funext acc x
    by_cases hx : x.RequesterID = cu.ID <;> simp [hx]
  rw [h, foldl_guard_append]
  simp

/-! ## Time lemmas -/

theorem wrapInt64_of_range (x : Int) (hlo : -(2 ^ 63) ≤ x) (hhi : x < 2 ^ 63) :
    wrapInt64 x = x := by
  unfold wrapInt64
  norm_num at hlo hhi ⊢
  omega

/-- For thresholds whose hour count fits a `Duration`, the computed offset is exact. -/
theorem duration_hours_exact (n : Int) (hlo : -2562047 ≤ n) (hhi : n ≤ 2562047) :
    wrapInt64 (wrapInt64 (-n) * Hour) = -(n * Hour) := by
  have h1 : wrapInt64 (-n) = -n := by
    apply wrapInt64_of_range <;> norm_num <;> omega
  rw [h1]
  have h2 : wrapInt64 (-n * Hour) = -n * Hour := by
    apply wrapInt64_of_range <;> unfold Hour <;> norm_num <;> omega
  rw [h2]
  ring

theorem movedInLastNHours_iff (sys : Sys) (s : Story) (n : Int)
    (hlo : -2562047 ≤ n) (hhi : n ≤ 2562047) :
    s.MovedInLastNHours sys n = true ↔ StaleAt sys n s := by
  unfold Story.MovedInLastNHours StaleAt
  cases h : sys.parseRFC3339 s.MovedAt with
  | none => simp
  | some t =>
    simp only [duration_hours_exact n hlo hhi, decide_eq_true_eq, Option.some.injEq,
      exists_eq_left']
    constructor <;> intro h <;> linarith

/-! ## Claims about the filters -/

/-- C8: `slackUsersForEmails` and `clubhouseUsersForEmails` return exactly the
input users whose profile email equals some allowlist entry, each as many times
as it occurs in the input (also when the allowlist repeats the email), and a
user whose email differs from every entry never appears. -/
theorem usersForEmails_exact (slackUsers : List SlackUser) (users : List User)
    (allowlist : List String) :
    slackUsersForEmails slackUsers allowlist
        = slackUsers.filter (fun u => decide (u.Profile.Email ∈ allowlist))
    ∧ clubhouseUsersForEmails users allowlist
        = users.filter (fun u => decide (u.Profile.Email ∈ allowlist))
    ∧ (∀ u : SlackUser, (slackUsersForEmails slackUsers allowlist).count u
        = if u.Profile.Email ∈ allowlist then slackUsers.count u else 0)
    ∧ (∀ u : User, (clubhouseUsersForEmails users allowlist).count u
        = if u.Profile.Email ∈ allowlist then users.count u else 0)
    ∧ (∀ u : SlackUser, u.Profile.Email ∉ allowlist →
        u ∉ slackUsersForEmails slackUsers allowlist)
    ∧ (∀ u : User, u.Profile.Email ∉ allowlist →
        u ∉ clubhouseUsersForEmails users allowlist) := by
  refine ⟨slackUsersForEmails_eq_filter _ _, clubhouseUsersForEmails_eq_filter _ _,
    ?_, ?_, ?_, ?_⟩
  · intro u
    rw [slackUsersForEmails_eq_filter]
    by_cases hu : u.Profile.Email ∈ allowlist
    · rw [if_pos hu, List.count_filter (by simpa using hu)]
    · rw [if_neg hu, List.count_eq_zero]
      simp [List.mem_filter, hu]
  · intro u
    rw [clubhouseUsersForEmails_eq_filter]
    by_cases hu : u.Profile.Email ∈ allowlist
    · rw [if_pos hu, List.count_filter (by simpa using hu)]
    · rw [if_neg hu, List.count_eq_zero]
      simp [List.mem_filter, hu]
  · intro u hu
    rw [slackUsersForEmails_eq_filter]
    simp [List.mem_filter, hu]
  · intro u hu
    rw [clubhouseUsersForEmails_eq_filter]
    simp [List.mem_filter, hu]

/-- C9: the output of each of the six list filters is a sublist of its primary
input list: surviving elements keep their input order and nothing is added or
repeated. -/
theorem filters_sublist (sys : Sys) (slackUsers : List SlackUser) (users : List User)
    (emails : List String) (projects : List Project) (t : Int) (stories : List Story)
    (ws : WorkflowState) (n : Int) :
    (slackUsersForEmails slackUsers emails).Sublist slackUsers
    ∧ (clubhouseUsersForEmails users emails).Sublist users
    ∧ (projectsForTeam projects t).Sublist projects
    ∧ (storiesInWorkflowState stories ws).Sublist stories
    ∧ (storiesForRequesters stories users).Sublist stories
    ∧ (storiesOlderThanNHoursAgo sys stories n).Sublist stories := by
  rw [slackUsersForEmails_eq_filter, clubhouseUsersForEmails_eq_filter,
    projectsForTeam_eq_filter, storiesInWorkflowState_eq_filter,
    storiesForRequesters_eq_filter, storiesOlderThanNHoursAgo_eq_filter]
  exact ⟨List.filter_sublist _, List.filter_sublist _, List.filter_sublist _,
    List.filter_sublist _, List.filter_sublist _, List.filter_sublist _⟩

/-! ## Claims about the staleness filter -/

/-- C2, as stated, fails: at the threshold `n = 2562048` the product
`time.Duration(-n) * time.Hour` leaves the `int64` range and wraps to a positive
duration, so a story moved one hour ago is kept although it is not before now
minus `n` hours. -/
theorem storiesOlderThan_every_threshold_counterexample :
    storiesOlderThanNHoursAgo sysOneHourAgo [exampleStory] 2562048 = [exampleStory]
    ∧ [exampleStory].filter (fun s => decide (StaleAt sysOneHourAgo 2562048 s)) = [] := by
  decide

/-- C2, amended: for every threshold `n` with `-2562047 ≤ n ≤ 2562047` (the
thresholds whose hour count fits a `time.Duration`), `storiesOlderThanNHoursAgo`
returns exactly the stories whose `MovedAt` parses to an instant strictly before
now minus `n` hours, in input order; a story moved exactly `n` hours ago is
excluded; at `n = 18` a story moved 19 hours ago is included and one moved 17
hours ago is excluded; a story whose `MovedAt` does not parse is never included
(at any threshold), and the function is total. -/
theorem storiesOlderThan_spec (sys : Sys) (stories : List Story) (n : Int)
    (hlo : -2562047 ≤ n) (hhi : n ≤ 2562047) :
    storiesOlderThanNHoursAgo sys stories n
        = stories.filter (fun s => decide (StaleAt sys n s))
    ∧ (∀ s, sys.parseRFC3339 s.MovedAt = some (sys.now - n * Hour) →
        s ∉ storiesOlderThanNHoursAgo sys stories n)
    ∧ (∀ s ∈ stories, sys.parseRFC3339 s.MovedAt = some (sys.now - 19 * Hour) →
        s ∈ storiesOlderThanNHoursAgo sys stories 18)
    ∧ (∀ s, sys.parseRFC3339 s.MovedAt = some (sys.now - 17 * Hour) →
        s ∉ storiesOlderThanNHoursAgo sys stories 18)
    ∧ (∀ (m : Int) (s : Story), sys.parseRFC3339 s.MovedAt = none →
        s ∉ storiesOlderThanNHoursAgo sys stories m) := by
  have h18 : ∀ s : Story, s.MovedInLastNHours sys 18 = true ↔ StaleAt sys 18 s :=
    fun s => movedInLastNHours_iff sys s 18 (by decide) (by decide)
  refine ⟨?_, ?_, ?_, ?_, ?_⟩
  · rw [storiesOlderThanNHoursAgo_eq_filter]
    apply List.filter_congr
    intro s _
    rw [Bool.eq_iff_iff, movedInLastNHours_iff sys s n hlo hhi]
    simp
  · intro s hs hmem
    rw [storiesOlderThanNHoursAgo_eq_filter, List.mem_filter,
      movedInLastNHours_iff sys s n hlo hhi] at hmem
    obtain ⟨_, t, ht, hlt⟩ := hmem
    rw [hs] at ht
    cases ht
    exact lt_irrefl _ hlt
  · intro s hmem hs
    rw [storiesOlderThanNHoursAgo_eq_filter, List.mem_filter, h18]
    refine ⟨hmem, sys.now - 19 * Hour, hs, ?_⟩
    unfold Hour
    omega
  · intro s hs hmem
    rw [storiesOlderThanNHoursAgo_eq_filter, List.mem_filter, h18] at hmem
    obtain ⟨_, t, ht, hlt⟩ := hmem
    rw [hs] at ht
    cases ht
    unfold Hour at hlt
    omega
  · intro m s hs hmem
    rw [storiesOlderThanNHoursAgo_eq_filter, List.mem_filter] at hmem
    simp [Story.MovedInLastNHours, hs] at hmem

/-- Witness for C2: threshold 18 on a story moved nineteen hours ago. -/
theorem storiesOlderThan_spec_witness :
    (-2562047 ≤ (18 : Int) ∧ (18 : Int) ≤ 2562047)
    ∧ storiesOlderThanNHoursAgo sysNineteenHoursAgo [exampleStory] 18
        = [exampleStory].filter (fun s => decide (StaleAt sysNineteenHoursAgo 18 s))
    ∧ storiesOlderThanNHoursAgo sysNineteenHoursAgo [exampleStory] 18 = [exampleStory] :=
  ⟨by decide,
   (storiesOlderThan_spec sysNineteenHoursAgo [exampleStory] 18 (by decide) (by decide)).1,
   by decide⟩

/-! ## Claims about the workflow-state lookup -/

theorem firstStateNamed_eq_find (name : String) (states : List WorkflowState) :
    firstStateNamed name states = states.find? (fun s => decide (s.Name = name)) := by
  induction states with
  | nil => rfl
  | cons s ss ih =>
    by_cases hs : s.Name = name
    · simp [firstStateNamed, List.find?_cons, hs]
    · simp [firstStateNamed, List.find?_cons, hs, ih]

theorem workflowStateForTeamWithName_cons (w : Workflow) (rest : List Workflow) (t : Int)
    (name : String) :
    workflowStateForTeamWithName (w :: rest) t name
      = if w.TeamID = t then
          match w.States.find? (fun s => decide (s.Name = name)) with
          | some st => some st
          | none => workflowStateForTeamWithName rest t name
        else workflowStateForTeamWithName rest t name := by
  rw [workflowStateForTeamWithName, firstStateNamed_eq_find]
  by_cases h : w.TeamID = t <;> simp [h]

/-- C4, as stated, fails: when the first workflow of the team has no state with
the name and a later workflow of the team has one, the lookup returns the later
workflow's state, not "not found". -/
theorem workflowState_first_workflow_counterexample :
    workflowStateForTeamWithName twoWorkflows 5285 "In Acceptance"
        = some ⟨21, "In Acceptance"⟩
    ∧ firstWorkflowStateSpec twoWorkflows 5285 "In Acceptance" = none := by
  decide

/-- C4, amended: `workflowStateForTeamWithName` returns "not found" when no
workflow has the team id; otherwise, with `w` the first workflow of the team, it
returns the first state of `w` with the name when `w` has one, and when `w` has
none it returns what the lookup returns on the workflows after `w`. -/
theorem workflowState_first_team_workflow (workflows : List Workflow) (t : Int)
    (name : String) :
    ((∀ w ∈ workflows, w.TeamID ≠ t) → workflowStateForTeamWithName workflows t name = none)
    ∧ (∀ (pre : List Workflow) (w : Workflow) (post : List Workflow),
        workflows = pre ++ w :: post → (∀ v ∈ pre, v.TeamID ≠ t) → w.TeamID = t →
        workflowStateForTeamWithName workflows t name
          = match w.States.find? (fun s => decide (s.Name = name)) with
            | some st => some st
            | none => workflowStateForTeamWithName post t name) := by
  have skip : ∀ (pre rest : List Workflow), (∀ v ∈ pre, v.TeamID ≠ t) →
      workflowStateForTeamWithName (pre ++ rest) t name
        = workflowStateForTeamWithName rest t name := by
    intro pre rest hpre
    induction pre with
    | nil => rfl
    | cons v vs ih =>
      have hv : v.TeamID ≠ t := hpre v (List.mem_cons_self _ _)
      rw [List.cons_append, workflowStateForTeamWithName_cons, if_neg hv]
      exact ih (fun u hu => hpre u (List.mem_cons_of_mem _ hu))
  constructor
  · intro hall
    have h := skip workflows [] hall
    rw [List.append_nil] at h
    rw [h]
    rfl
  · intro pre w post hsplit hpre hw
    rw [hsplit, skip pre (w :: post) hpre, workflowStateForTeamWithName_cons, if_pos hw]


theorem workflowStateForTeamWithName_eq_none_iff (workflows : List Workflow) (t : Int)
    (name : String) :
    workflowStateForTeamWithName workflows t name = none
      ↔ ¬ ∃ w ∈ workflows, w.TeamID = t ∧ ∃ s ∈ w.States, s.Name = name := by
  induction workflows with
  | nil => simp [workflowStateForTeamWithName]
  | cons w rest ih =>
    rw [workflowStateForTeamWithName_cons]
    by_cases hw : w.TeamID = t
    · rw [if_pos hw]
      cases hf : w.States.find? (fun s => decide (s.Name = name)) with
      | some st =>
        have hmem := List.mem_of_find?_eq_some hf
        have hname : st.Name = name := by simpa using List.find?_some hf
        simp only [reduceCtorEq, false_iff, not_not]
        exact ⟨w, List.mem_cons_self _ _, hw, st, hmem, hname⟩
      | none =>
        have hnone : ∀ s ∈ w.States, s.Name ≠ name := by
          simpa using (List.find?_eq_none.mp hf)
        simp only [ih, List.mem_cons, not_exists, not_and]
        constructor
        · intro h v hv hvt s hs
          rcases hv with rfl | hv
          · exact hnone s hs
          · exact h v hv hvt s hs
        · intro h v hv hvt s hs
          exact h v (Or.inr hv) hvt s hs
    · rw [if_neg hw, ih]
      simp only [List.mem_cons, not_exists, not_and]
      constructor
      · intro h v hv hvt s hs
        rcases hv with rfl | hv
        · exact absurd hvt hw
        · exact h v hv hvt s hs
      · intro h v hv hvt s hs
        exact h v (Or.inr hv) hvt s hs

theorem workflowStateForTeamWithName_eq_find (workflows : List Workflow) (t : Int)
    (name : String) :
    workflowStateForTeamWithName workflows t name
      = (workflows.find? (fun w =>
            decide (w.TeamID = t) && w.States.any (fun s => decide (s.Name = name)))).bind
          (fun w => w.States.find? (fun s => decide (s.Name = name))) := by
  induction workflows with
  | nil => rfl
  | cons w rest ih =>
    rw [workflowStateForTeamWithName_cons]
    by_cases hw : w.TeamID = t
    · rw [if_pos hw]
      cases hf : w.States.find? (fun s => decide (s.Name = name)) with
      | some st =>
        have hany : w.States.any (fun s => decide (s.Name = name)) = true := by
          rw [List.any_eq_true]
          have hname : st.Name = name := by simpa using List.find?_some hf
          exact ⟨st, List.mem_of_find?_eq_some hf, decide_eq_true hname⟩
        simp [List.find?_cons, hw, hany, hf]
      | none =>
        have hany : w.States.any (fun s => decide (s.Name = name)) = false := by
          rw [List.any_eq_false]
          intro s hs
          exact List.find?_eq_none.mp hf s hs
        simp [List.find?_cons, hw, hany, ih]
    · rw [if_neg hw, ih]
      simp [List.find?_cons, hw]

theorem fetchAllStories_ne_text (fetchStories : Int → Except String (List Story))
    (projects : List Project) (acc : List Story) (s : String) :
    fetchAllStories fetchStories acc projects ≠ .error (Panic.text s) := by
  induction projects generalizing acc with
  | nil => simp [fetchAllStories]
  | cons p ps ih =>
    rw [fetchAllStories]
    cases hf : fetchStories p.ID with
    | error e => simp
    | ok fetched => exact ih _

/-- C10: `workflowStateForTeamWithName` returns `nil` if and only if no workflow
with the team id, anywhere in the list, has a state with the name; when it
returns a state, that state is the first name-matching state of the earliest
workflow that has the team id and contains a name-matching state.  So, once the
users and workflows are fetched, `run` aborts with "Nil
acceptanceWorkflowState" exactly when no workflow of team 5285 has a state named
"In Acceptance". -/
theorem workflowState_nil_iff_and_run_abort :
    (∀ (workflows : List Workflow) (t : Int) (name : String),
      (workflowStateForTeamWithName workflows t name = none
        ↔ ¬ ∃ w ∈ workflows, w.TeamID = t ∧ ∃ s ∈ w.States, s.Name = name)
      ∧ workflowStateForTeamWithName workflows t name
        = (workflows.find? (fun w =>
              decide (w.TeamID = t) && w.States.any (fun s => decide (s.Name = name)))).bind
            (fun w => w.States.find? (fun s => decide (s.Name = name))))
    ∧ (∀ (sys : Sys) (w : World) (slackUsers : List SlackUser) (clubhouseUsers : List User)
        (workflows : List Workflow),
        w.fetchSlackUsers = .ok slackUsers → w.fetchClubhouseUsers = .ok clubhouseUsers →
        w.fetchWorkflows = .ok workflows →
        (run sys w = .error (Panic.text "Nil acceptanceWorkflowState")
          ↔ ¬ ∃ wf ∈ workflows, wf.TeamID = teamID
              ∧ ∃ s ∈ wf.States, s.Name = "In Acceptance")) := by
  refine ⟨fun workflows t name =>
    ⟨workflowStateForTeamWithName_eq_none_iff workflows t name,
     workflowStateForTeamWithName_eq_find workflows t name⟩, ?_⟩
  intro sys w slackUsers clubhouseUsers workflows h1 h2 h3
  rw [← workflowStateForTeamWithName_eq_none_iff]
  unfold run runNotifyArgs
  simp only [h1, h2, h3]
  cases hst : workflowStateForTeamWithName workflows teamID "In Acceptance" with
  | none => simp
  | some st =>
    simp only [reduceCtorEq, iff_false]
    cases hp : w.fetchProjects with
    | error e => simp
    | ok projects =>
      simp only
      cases hf : fetchAllStories w.fetchStories [] (projectsForTeam projects teamID) with
      | error p =>
        simp only
        intro hbad
        injection hbad with hbad
        exact fetchAllStories_ne_text _ _ _ _ (hbad ▸ hf)
      | ok stories =>
        simp only
        split <;> simp


/-! ## Claims about the orchestrator -/

theorem fetchAllStories_ok (storiesOf : Int → List Story) (projects : List Project)
    (acc : List Story) :
    fetchAllStories (fun projectID => .ok (storiesOf projectID)) acc projects
      = .ok (acc ++ projects.flatMap (fun p => storiesOf p.ID)) := by
  induction projects generalizing acc with
  | nil => simp [fetchAllStories]
  | cons p ps ih =>
    rw [fetchAllStories]
    simp only [ih, List.flatMap_cons, List.append_assoc]

/-- C1: with every fetch a given successful result and the clock fixed, whenever
the "In Acceptance" state of team 5285 is found, the stories `run` passes to
`notifySlackOfStaleStories` are the stories fetched for the projects of team
5285, concatenated in project order, restricted (order kept, nothing removed as
a duplicate) to those whose `WorkflowStateID` is the resolved state's ID, whose
`RequesterID` is the ID of a fetched tracking user with an allowlisted email, and
whose `MovedAt` parses to an instant strictly before now minus 18 hours. -/
theorem run_notified_stories (sys : Sys) (w : World) (slackUsers : List SlackUser)
    (clubhouseUsers : List User) (workflows : List Workflow) (projects : List Project)
    (storiesOf : Int → List Story) (state : WorkflowState)
    (hSlack : w.fetchSlackUsers = .ok slackUsers)
    (hUsers : w.fetchClubhouseUsers = .ok clubhouseUsers)
    (hWorkflows : w.fetchWorkflows = .ok workflows)
    (hProjects : w.fetchProjects = .ok projects)
    (hStories : w.fetchStories = fun projectID => .ok (storiesOf projectID))
    (hState : workflowStateForTeamWithName workflows teamID "In Acceptance" = some state) :
    runNotifyArgs sys w
      = .ok (staleStoriesSpec sys clubhouseUsers projects storiesOf state,
          clubhouseUsersForEmails clubhouseUsers whitelistedEmails,
          slackUsersForEmails slackUsers whitelistedEmails) := by
  unfold runNotifyArgs
  simp only [hSlack, hUsers, hWorkflows, hProjects, hStories, hState, fetchAllStories_ok,
    List.nil_append]
  congr 2
  rw [storiesOlderThanNHoursAgo_eq_filter, storiesForRequesters_eq_filter,
    storiesInWorkflowState_eq_filter, projectsForTeam_eq_filter,
    clubhouseUsersForEmails_eq_filter, List.filter_filter, List.filter_filter]
  unfold staleStoriesSpec
  have hteam : teamID = 5285 := rfl
  rw [hteam]
  apply List.filter_congr
  intro s _
  rw [Bool.eq_iff_iff]
  have h18 := movedInLastNHours_iff sys s 18 (by decide) (by decide)
  have hn : nHoursAgo = 18 := rfl
  simp only [hn, Bool.and_eq_true, h18, decide_eq_true_eq, List.mem_filter]
  constructor
  · rintro ⟨⟨hst, u, ⟨hu, hmail⟩, hid⟩, hws⟩
    exact ⟨hws, ⟨u, hu, hmail, hid⟩, hst⟩
  · rintro ⟨hws, ⟨u, hu, hmail, hid⟩, hst⟩
    exact ⟨⟨hst, u, ⟨hu, hmail⟩, hid⟩, hws⟩

/-- Witness for C1: the end-to-end scenario of the specification (one project of
the team, three stories in acceptance moved 20 hours ago, two of them requested
by an allowlisted user). -/
theorem run_notified_stories_witness :
    runNotifyArgs exampleSys exampleWorld
      = .ok (staleStoriesSpec exampleSys exampleClubhouseUsers exampleProjects
              exampleStoriesOf ⟨21, "In Acceptance"⟩,
          clubhouseUsersForEmails exampleClubhouseUsers whitelistedEmails,
          slackUsersForEmails exampleSlackUsers whitelistedEmails)
    ∧ staleStoriesSpec exampleSys exampleClubhouseUsers exampleProjects
          exampleStoriesOf ⟨21, "In Acceptance"⟩
        = [⟨101, "Quote page", "c-1", 21, "2019-03-01T04:00:00Z"⟩,
           ⟨102, "Login", "c-1", 21, "2019-03-01T04:00:00Z"⟩] :=
  ⟨run_notified_stories exampleSys exampleWorld exampleSlackUsers exampleClubhouseUsers
      twoWorkflows exampleProjects exampleStoriesOf ⟨21, "In Acceptance"⟩
      rfl rfl rfl rfl rfl (by decide),
   by decide⟩


/-! ## Notifier lemmas -/

theorem clubhouseUserForEmail_eq_find (email : String) (users : List User) :
    clubhouseUserForEmail email users
      = (users.find? (fun u => decide (u.Profile.Email = email))).getD ⟨"", ⟨""⟩⟩ := by
  induction users with
  | nil => rfl
  | cons u us ih =>
    by_cases hu : u.Profile.Email = email
    · simp [clubhouseUserForEmail, List.find?_cons, hu]
    · simp [clubhouseUserForEmail, List.find?_cons, hu, ih]

theorem notifyStep_eq (sys : Sys) (post : String → String → Option String)
    (stories : List Story) (clubhouseUsers : List User) (st : NotifyState)
    (slackUser : SlackUser) :
    notifyStep sys post stories clubhouseUsers st slackUser
      = ⟨st.errors ++ ((notifyAttempt sys stories clubhouseUsers slackUser).bind
            (fun a => post a.1 a.2)).toList,
         st.sent ++ (notifyAttempt sys stories clubhouseUsers slackUser).toList⟩ := by
  unfold notifyStep notifyAttempt attributedStories
  simp only [storiesForSlackUser_eq_filter, List.length_eq_zero]
  by_cases hnil : stories.filter (fun s => decide (s.RequesterID
      = (clubhouseUserForEmail slackUser.Profile.Email clubhouseUsers).ID)) = []
  · simp [hnil]
  · simp only [hnil, if_false, Option.some_bind, Option.toList_some]
    cases hp : post slackUser.ID (staleStoriesMessage sys (stories.filter (fun s =>
        decide (s.RequesterID
          = (clubhouseUserForEmail slackUser.Profile.Email clubhouseUsers).ID)))) with
    | none => simp
    | some e => simp

theorem notifyLoop_fold (sys : Sys) (post : String → String → Option String)
    (stories : List Story) (clubhouseUsers : List User) (slackUsers : List SlackUser)
    (st : NotifyState) :
    slackUsers.foldl (notifyStep sys post stories clubhouseUsers) st
      = ⟨st.errors ++ (slackUsers.filterMap (notifyAttempt sys stories clubhouseUsers)).filterMap
            (fun a => post a.1 a.2),
         st.sent ++ slackUsers.filterMap (notifyAttempt sys stories clubhouseUsers)⟩ := by
  induction slackUsers generalizing st with
  | nil => simp
  | cons su sus ih =>
    rw [List.foldl_cons, ih, notifyStep_eq]
    cases ha : notifyAttempt sys stories clubhouseUsers su with
    | none => simp [List.filterMap_cons, ha]
    | some a =>
      cases hp : post a.1 a.2 with
      | none => simp [List.filterMap_cons, ha, hp]
      | some e => simp [List.filterMap_cons, ha, hp]

theorem notify_sent (sys : Sys) (post : String → String → Option String)
    (stories : List Story) (clubhouseUsers : List User) (slackUsers : List SlackUser) :
    (notifySlackOfStaleStories sys post stories clubhouseUsers slackUsers).2
      = slackUsers.filterMap (notifyAttempt sys stories clubhouseUsers) := by
  unfold notifySlackOfStaleStories notifyLoop
  rw [notifyLoop_fold]
  simp only [List.nil_append]
  split <;> rfl

theorem notify_error (sys : Sys) (post : String → String → Option String)
    (stories : List Story) (clubhouseUsers : List User) (slackUsers : List SlackUser) :
    (notifySlackOfStaleStories sys post stories clubhouseUsers slackUsers).1
      = if (slackUsers.filterMap (notifyAttempt sys stories clubhouseUsers)).filterMap
            (fun a => post a.1 a.2) = [] then none
        else some (String.join
          ((slackUsers.filterMap (notifyAttempt sys stories clubhouseUsers)).filterMap
            (fun a => post a.1 a.2))) := by
  unfold notifySlackOfStaleStories notifyLoop
  rw [notifyLoop_fold]
  simp only [List.nil_append, List.length_eq_zero]
  split <;> rfl

theorem foldl_append_eq_join (f : Story → String) (l : List Story) (init : String) :
    l.foldl (fun message s => message ++ f s) init = init ++ String.join (l.map f) := by
  have hjoin : ∀ (ss : List String) (acc : String),
      ss.foldl (fun r s => r ++ s) acc = acc ++ ss.foldl (fun r s => r ++ s) "" := by
    intro ss
    induction ss with
    | nil => intro acc; simp
    | cons x xs ih =>
      intro acc
      rw [List.foldl_cons, List.foldl_cons, ih (acc ++ x), ih ("" ++ x), String.empty_append,
        String.append_assoc]
  induction l generalizing init with
  | nil => simp [String.join]
  | cons x xs ih =>
    rw [List.foldl_cons, ih, List.map_cons, String.append_assoc]
    congr 1
    unfold String.join
    rw [List.foldl_cons, hjoin _ ("" ++ f x), String.empty_append]

theorem staleStoriesMessage_eq (sys : Sys) (ss : List Story) :
    staleStoriesMessage sys ss
      = summaryLine ss.length ++ String.join (ss.map (bulletLine sys)) := by
  unfold staleStoriesMessage
  have hb : (fun (message : String) (story : Story) =>
      message ++ ("* <" ++ story.url ++ "|" ++ story.Name ++ "> was moved "
        ++ sys.durationString (story.ago sys) ++ " ago\n"))
      = fun message story => message ++ bulletLine sys story := by
    funext message story
    unfold bulletLine Story.url
    simp only [String.append_assoc]
    rfl
  have hs : "You have " ++ toString ss.length ++ " story(s) in acceptance for more than "
      ++ toString nHoursAgo ++ " hours\n" = summaryLine ss.length := by
    unfold summaryLine
    have h18 : toString nHoursAgo = "18" := by decide
    rw [h18]
    simp only [String.append_assoc]
    rfl
  rw [hb, hs, foldl_append_eq_join]


/-! ## Claims about the notifier -/

/-- C3, evaluated on the code: a Slack user without a Clubhouse user of the same
email is looked up as the zero `User`, whose ID is the empty string, so a story
whose `RequesterID` is empty is attributed to that Slack user and a message is
sent to it. -/
theorem notify_unmatched_user_gets_message :
    ([⟨"c-1", ⟨"stephen.meriwether@policygenius.com"⟩⟩] : List User).find?
        (fun u => decide (u.Profile.Email = "adam.chadroff@policygenius.com")) = none
    ∧ storiesForSlackUser [orphanStory]
        (clubhouseUserForEmail "adam.chadroff@policygenius.com"
          [⟨"c-1", ⟨"stephen.meriwether@policygenius.com"⟩⟩]) = [orphanStory]
    ∧ (notifySlackOfStaleStories exampleSys (fun _ _ => none) [orphanStory]
        [⟨"c-1", ⟨"stephen.meriwether@policygenius.com"⟩⟩]
        [⟨"U2", ⟨"adam.chadroff@policygenius.com"⟩⟩]).2.map Prod.fst = ["U2"] := by
  decide

/-- C5: for a Slack user entry whose email has a Clubhouse user, with `cu` the
first such Clubhouse user, the notifier sends that entry exactly one message,
addressed to the Slack user's ID, if some input story has `RequesterID = cu.ID`,
and none otherwise; the sends come in Slack-user list order (the recipients for
the entries before, then this entry's, then those for the entries after). -/
theorem notify_one_message_per_matched_user (sys : Sys)
    (post : String → String → Option String) (stories : List Story)
    (clubhouseUsers : List User) (pre : List SlackUser) (slackUser : SlackUser)
    (rest : List SlackUser) (cu : User)
    (hcu : clubhouseUsers.find? (fun u => decide (u.Profile.Email = slackUser.Profile.Email))
      = some cu) :
    (notifySlackOfStaleStories sys post stories clubhouseUsers
        (pre ++ slackUser :: rest)).2.map Prod.fst
      = (notifySlackOfStaleStories sys post stories clubhouseUsers pre).2.map Prod.fst
        ++ (if ∃ s ∈ stories, s.RequesterID = cu.ID then [slackUser.ID] else [])
        ++ (notifySlackOfStaleStories sys post stories clubhouseUsers rest).2.map Prod.fst := by
  have hlookup : clubhouseUserForEmail slackUser.Profile.Email clubhouseUsers = cu := by
    rw [clubhouseUserForEmail_eq_find, hcu]
    rfl
  simp only [notify_sent, List.filterMap_append, List.filterMap_cons, List.map_append,
    List.append_assoc]
  congr 1
  unfold notifyAttempt attributedStories
  rw [hlookup]
  by_cases hex : ∃ s ∈ stories, s.RequesterID = cu.ID
  · have hne : stories.filter (fun s => decide (s.RequesterID = cu.ID)) ≠ [] := by
      obtain ⟨s, hs, hid⟩ := hex
      intro hnil
      have hmem : s ∈ stories.filter (fun s => decide (s.RequesterID = cu.ID)) :=
        List.mem_filter.mpr ⟨hs, decide_eq_true hid⟩
      rw [hnil] at hmem
      cases hmem
    simp [hex, hne]
  · have hnil : stories.filter (fun s => decide (s.RequesterID = cu.ID)) = [] := by
      rw [List.filter_eq_nil_iff]
      intro s hs hdec
      exact hex ⟨s, hs, of_decide_eq_true hdec⟩
    simp [hex, hnil]

/-- Witness for C5: the allowlisted user of the example gets one message, the
second Slack user (no Clubhouse account) follows in list order. -/
theorem notify_one_message_per_matched_user_witness :
    exampleClubhouseUsers.find?
        (fun u => decide (u.Profile.Email = "stephen.meriwether@policygenius.com"))
      = some ⟨"c-1", ⟨"stephen.meriwether@policygenius.com"⟩⟩
    ∧ (notifySlackOfStaleStories exampleSys (fun _ _ => none) exampleStaleStories
          exampleClubhouseUsers
          ([] ++ (⟨"U1", ⟨"stephen.meriwether@policygenius.com"⟩⟩ : SlackUser)
            :: [⟨"U2", ⟨"adam.chadroff@policygenius.com"⟩⟩])).2.map Prod.fst
        = (notifySlackOfStaleStories exampleSys (fun _ _ => none) exampleStaleStories
            exampleClubhouseUsers []).2.map Prod.fst
          ++ (if ∃ s ∈ exampleStaleStories, s.RequesterID = "c-1" then ["U1"] else [])
          ++ (notifySlackOfStaleStories exampleSys (fun _ _ => none) exampleStaleStories
            exampleClubhouseUsers
            [⟨"U2", ⟨"adam.chadroff@policygenius.com"⟩⟩]).2.map Prod.fst :=
  ⟨by decide,
   notify_one_message_per_matched_user exampleSys (fun _ _ => none) exampleStaleStories
     exampleClubhouseUsers [] ⟨"U1", ⟨"stephen.meriwether@policygenius.com"⟩⟩
     [⟨"U2", ⟨"adam.chadroff@policygenius.com"⟩⟩]
     ⟨"c-1", ⟨"stephen.meriwether@policygenius.com"⟩⟩ (by decide)⟩


theorem notify_recipients (sys : Sys) (stories : List Story) (clubhouseUsers : List User)
    (slackUsers : List SlackUser) :
    (slackUsers.filterMap (notifyAttempt sys stories clubhouseUsers)).map Prod.fst
      = (slackUsers.filter (fun su => decide (storiesForSlackUser stories
            (clubhouseUserForEmail su.Profile.Email clubhouseUsers) ≠ []))).map SlackUser.ID := by
  induction slackUsers with
  | nil => rfl
  | cons su sus ih =>
    by_cases hnil : storiesForSlackUser stories
        (clubhouseUserForEmail su.Profile.Email clubhouseUsers) = []
    · have hatt : notifyAttempt sys stories clubhouseUsers su = none := by
        unfold notifyAttempt attributedStories
        rw [← storiesForSlackUser_eq_filter, hnil]
        rfl
      simp [List.filterMap_cons, hatt, List.filter_cons, hnil, ih]
    · have hatt : ∃ text, notifyAttempt sys stories clubhouseUsers su = some (su.ID, text) := by
        unfold notifyAttempt attributedStories
        rw [← storiesForSlackUser_eq_filter, if_neg hnil]
        exact ⟨_, rfl⟩
      obtain ⟨text, htext⟩ := hatt
      simp [List.filterMap_cons, htext, List.filter_cons, hnil, ih]

/-- C6: with the send a function from (channel, text) to an optional error, the
notifier attempts one send for every Slack user with at least one attributed
story, whatever the sends return; it returns no error if and only if every
attempted send succeeded; and an error it returns has as text the
concatenation, in recipient order and without separator, of the error messages
of exactly the failed sends. -/
theorem notify_error_aggregation (sys : Sys) (post : String → String → Option String)
    (stories : List Story) (clubhouseUsers : List User) (slackUsers : List SlackUser) :
    (notifySlackOfStaleStories sys post stories clubhouseUsers slackUsers).2.map Prod.fst
        = (slackUsers.filter (fun su => decide (storiesForSlackUser stories
              (clubhouseUserForEmail su.Profile.Email clubhouseUsers) ≠ []))).map SlackUser.ID
    ∧ (∀ post2 : String → String → Option String,
        (notifySlackOfStaleStories sys post2 stories clubhouseUsers slackUsers).2
          = (notifySlackOfStaleStories sys post stories clubhouseUsers slackUsers).2)
    ∧ ((notifySlackOfStaleStories sys post stories clubhouseUsers slackUsers).1 = none
        ↔ ∀ a ∈ (notifySlackOfStaleStories sys post stories clubhouseUsers slackUsers).2,
            post a.1 a.2 = none)
    ∧ (∀ msg, (notifySlackOfStaleStories sys post stories clubhouseUsers slackUsers).1
          = some msg →
        msg = String.join
          ((notifySlackOfStaleStories sys post stories clubhouseUsers slackUsers).2.filterMap
            (fun a => post a.1 a.2))) := by
  refine ⟨?_, ?_, ?_, ?_⟩
  · rw [notify_sent, notify_recipients]
  · intro post2
    rw [notify_sent, notify_sent]
  · rw [notify_error, notify_sent]
    by_cases hnil : (slackUsers.filterMap (notifyAttempt sys stories clubhouseUsers)).filterMap
        (fun a => post a.1 a.2) = []
    · rw [if_pos hnil]
      simp only [true_iff]
      intro a ha
      cases hp : post a.1 a.2 with
      | none => rfl
      | some e =>
        have hmem : e ∈ (slackUsers.filterMap
            (notifyAttempt sys stories clubhouseUsers)).filterMap (fun a => post a.1 a.2) :=
          List.mem_filterMap.mpr ⟨a, ha, hp⟩
        rw [hnil] at hmem
        cases hmem
    · rw [if_neg hnil]
      simp only [reduceCtorEq, false_iff]
      intro hall
      apply hnil
      rw [List.filterMap_eq_nil_iff]
      exact hall
  · intro msg hmsg
    rw [notify_error] at hmsg
    rw [notify_sent]
    split at hmsg
    · cases hmsg
    · injection hmsg with hmsg
      exact hmsg.symm

/-- Example for C6: three recipients, the sends to the first and the third
fail; all three sends are attempted and the error text is the two messages
concatenated. -/
theorem notify_error_aggregation_witness :
    (notifySlackOfStaleStories exampleSys failingPost threeStories threeClubhouseUsers
        threeSlackUsers).2.map Prod.fst = ["U1", "U2", "U3"]
    ∧ (notifySlackOfStaleStories exampleSys failingPost threeStories threeClubhouseUsers
        threeSlackUsers).1 = some "U1 unreachable;U3 unreachable;"
    ∧ (notifySlackOfStaleStories exampleSys (fun _ _ => none) threeStories threeClubhouseUsers
        threeSlackUsers).2
      = (notifySlackOfStaleStories exampleSys failingPost threeStories threeClubhouseUsers
        threeSlackUsers).2 :=
  ⟨by decide, by decide,
   (notify_error_aggregation exampleSys failingPost threeStories threeClubhouseUsers
      threeSlackUsers).2.1 (fun _ _ => none)⟩

/-- C7: for a Slack user with a non-empty list `s1..sk` of attributed stories
(in input order), the text sent to it is the summary line "You have k story(s)
in acceptance for more than 18 hours" followed by one bullet per story, in
order, built from the story's id, name and time since moved; the count in the
summary line is the number of bullets and the threshold shown is the constant
18. -/
theorem notify_message_text (sys : Sys) (post : String → String → Option String)
    (stories : List Story) (clubhouseUsers : List User) (pre : List SlackUser)
    (slackUser : SlackUser) (rest : List SlackUser)
    (hne : storiesForSlackUser stories
      (clubhouseUserForEmail slackUser.Profile.Email clubhouseUsers) ≠ []) :
    (notifySlackOfStaleStories sys post stories clubhouseUsers (pre ++ slackUser :: rest)).2
      = (notifySlackOfStaleStories sys post stories clubhouseUsers pre).2
        ++ [(slackUser.ID,
            "You have "
              ++ toString (storiesForSlackUser stories
                  (clubhouseUserForEmail slackUser.Profile.Email clubhouseUsers)).length
              ++ " story(s) in acceptance for more than 18 hours\n"
              ++ String.join ((storiesForSlackUser stories
                  (clubhouseUserForEmail slackUser.Profile.Email clubhouseUsers)).map
                (fun s => "* <https://app.clubhouse.io/policygenius/story/" ++ toString s.ID
                  ++ "|" ++ s.Name ++ "> was moved " ++ sys.durationString (s.ago sys)
                  ++ " ago\n")))]
        ++ (notifySlackOfStaleStories sys post stories clubhouseUsers rest).2
    ∧ ((storiesForSlackUser stories
          (clubhouseUserForEmail slackUser.Profile.Email clubhouseUsers)).map
        (fun s => "* <https://app.clubhouse.io/policygenius/story/" ++ toString s.ID
          ++ "|" ++ s.Name ++ "> was moved " ++ sys.durationString (s.ago sys)
          ++ " ago\n")).length
      = (storiesForSlackUser stories
          (clubhouseUserForEmail slackUser.Profile.Email clubhouseUsers)).length
    ∧ storiesForSlackUser stories
          (clubhouseUserForEmail slackUser.Profile.Email clubhouseUsers)
      = stories.filter (fun s => decide (s.RequesterID
          = (clubhouseUserForEmail slackUser.Profile.Email clubhouseUsers).ID)) := by
  refine ⟨?_, List.length_map _ _, storiesForSlackUser_eq_filter _ _⟩
  have hatt : notifyAttempt sys stories clubhouseUsers slackUser
      = some (slackUser.ID, staleStoriesMessage sys (storiesForSlackUser stories
          (clubhouseUserForEmail slackUser.Profile.Email clubhouseUsers))) := by
    unfold notifyAttempt attributedStories
    rw [← storiesForSlackUser_eq_filter, if_neg hne]
  simp only [notify_sent, List.filterMap_append, List.filterMap_cons, hatt,
    staleStoriesMessage_eq, List.append_assoc, List.singleton_append]
  rfl


/-- Witness for C7: the message for the two stale stories of the example. -/
theorem notify_message_text_witness :
    storiesForSlackUser exampleStaleStories
        (clubhouseUserForEmail "stephen.meriwether@policygenius.com" exampleClubhouseUsers)
      ≠ []
    ∧ (notifySlackOfStaleStories exampleSys (fun _ _ => none) exampleStaleStories
        exampleClubhouseUsers
        ([] ++ (⟨"U1", ⟨"stephen.meriwether@policygenius.com"⟩⟩ : SlackUser)
          :: [⟨"U2", ⟨"adam.chadroff@policygenius.com"⟩⟩])).2
      = [("U1",
          "You have 2 story(s) in acceptance for more than 18 hours\n"
            ++ "* <https://app.clubhouse.io/policygenius/story/101|Quote page> was moved 20h0m0s ago\n"
            ++ "* <https://app.clubhouse.io/policygenius/story/102|Login> was moved 20h0m0s ago\n")] :=
  ⟨by decide, by
    rw [(notify_message_text exampleSys (fun _ _ => none) exampleStaleStories
      exampleClubhouseUsers [] ⟨"U1", ⟨"stephen.meriwether@policygenius.com"⟩⟩
      [⟨"U2", ⟨"adam.chadroff@policygenius.com"⟩⟩] (by decide)).1]
    decide⟩

/-- Witness for the amended C4: in `twoWorkflows` the first workflow of the team
has no "In Acceptance" state, so the lookup continues with the second. -/
theorem workflowState_first_team_workflow_witness :
    workflowStateForTeamWithName twoWorkflows 5285 "In Acceptance"
      = workflowStateForTeamWithName
          [⟨2, [⟨20, "Ready"⟩, ⟨21, "In Acceptance"⟩], 5285⟩] 5285 "In Acceptance" :=
  (workflowState_first_team_workflow twoWorkflows 5285 "In Acceptance").2
    [] ⟨1, [⟨10, "Ready"⟩], 5285⟩ [⟨2, [⟨20, "Ready"⟩, ⟨21, "In Acceptance"⟩], 5285⟩]
    rfl (by decide) rfl

/-- Witness for C10: a run whose workflows lack the state aborts with the
string panic. -/
theorem workflowState_nil_iff_and_run_abort_witness :
    run exampleSys worldWithoutAcceptance = .error (Panic.text "Nil acceptanceWorkflowState") :=
  (workflowState_nil_iff_and_run_abort.2 exampleSys worldWithoutAcceptance exampleSlackUsers
    exampleClubhouseUsers [⟨1, [⟨10, "Ready"⟩], 5285⟩] rfl rfl rfl).mpr (by decide)

/-- The end-to-end scenario of the specification: one message with two bullet
lines is sent. -/
theorem run_example_sends_one_message :
    run exampleSys exampleWorld
      = .ok [("U1",
          "You have 2 story(s) in acceptance for more than 18 hours\n"
            ++ "* <https://app.clubhouse.io/policygenius/story/101|Quote page> was moved 20h0m0s ago\n"
            ++ "* <https://app.clubhouse.io/policygenius/story/102|Login> was moved 20h0m0s ago\n")] := by
  rfl

end ClubhouseNotifier
